import Mathlib

/-
Shallow embedding of the acquisition / trigger-synchronization engine of
c2dataviewer, translated from
  src/c2dataviewer/view/scope_display.py   (class Trigger, class PlotWidget)
  src/c2dataviewer/model/pvapy_plugins.py  (class Channel, class DataSource).

Modelling conventions:
  - numpy float timestamps and sample values are modelled as rationals;
  - numpy arrays are lists of rationals;
  - Python dicts are association lists with unique keys: reads go through
    dictGet, writes through dictSet (which replaces in place, preserving key
    uniqueness); the free-running store PlotWidget.data is read and written
    pointwise, so it is modelled directly as a function from keys to optional
    arrays;
  - Qt signals and warning emissions are modelled as an explicit DrawResult
    value returned next to the successor state;
  - callbacks are identified by opaque numeric tokens.
-/

inductive TriggerType where
  | onChange
  | gtThreshold
  | ltThreshold
deriving DecidableEq

/-- Outcome of one Trigger.draw_data call.  notTriggered models the early
return, absentFrame the branch where the data time field is missing from the
trigger store, emitted the successful window emission, waiting the
not-enough-samples debug path, missedFull / missedNotFull the two
missed-trigger paths, dataBehind the data-behind path, and crash the uncaught
TypeError raised when the data-behind warning text evaluates
(None - time_data[-1]) because the trigger timestamp was never captured. -/
inductive DrawOutcome where
  | notTriggered
  | absentFrame
  | emitted
  | waiting
  | missedFull
  | missedNotFull
  | dataBehind
  | crash
deriving DecidableEq

/-- Was the plot-ready Qt signal (plot_trigger_signal_emitter) fired? -/
def DrawOutcome.signaled : DrawOutcome → Bool
  | .absentFrame => true
  | .emitted => true
  | _ => false

/-- Payloads sent through Trigger.warning (the user-visible warning signal). -/
inductive TrigWarning where
  | dataTimeFieldAbsent
  | dataBehindBy (deficit : ℚ)
deriving DecidableEq

structure DrawResult where
  outcome : DrawOutcome
  warnings : List TrigWarning
deriving DecidableEq

/-- Python dict read d.get(k) / d[k] on an association list. -/
def dictGet {α : Type} : List (String × α) → String → Option α
  | [], _ => none
  | (k, v) :: rest, key => if k = key then some v else dictGet rest key

/-- Python dict write d[k] = v: replaces the existing binding in place
(dict insertion order is preserved) or appends a new one. -/
def dictSet {α : Type} : List (String × α) → String → α → List (String × α)
  | [], key, val => [(key, val)]
  | (k, v) :: rest, key, val =>
      if k = key then (key, val) :: rest else (k, v) :: dictSet rest key val

/-- Python tail slice l[-m:].  For m ≥ 1 this keeps the last min(m, len l)
elements; for m = 0 the Python slice [-0:] is [0:], i.e. the whole list. -/
def pytail {α : Type} (m : Nat) (l : List α) : List α :=
  if m = 0 then l else l.drop (l.length - m)

/-- Python a[0] on a numpy array (the source indexes only nonempty arrays). -/
def pyhead (a : List ℚ) : ℚ := a.getD 0 0

/-- Python a[-1] on a numpy array (the source indexes only nonempty arrays). -/
def pylast (a : List ℚ) : ℚ := a.getD (a.length - 1) 0

/-- numpy.searchsorted(a, v) with the default side=left: on a sorted array,
the insertion index, i.e. the length of the maximal prefix of elements
strictly below v (the first index whose element is ≥ v). -/
def searchsorted (a : List ℚ) (v : ℚ) : Nat :=
  match a with
  | [] => 0
  | x :: rest => if x < v then searchsorted rest v + 1 else 0

/-- Combined mutable state of PlotWidget and its Trigger engine.  Field names
follow the source.  data is the free-running store PlotWidget.data,
trig_data the trigger-local store Trigger.trig_data. -/
structure ScopeState where
  max_length : Nat
  new_buffer : Bool
  is_freeze : Bool
  sampling_mode : Bool
  plotting_started : Bool
  current_arrayid : String
  lastArrayId : Option ℚ
  lostArrays : Nat
  arraysReceived : Nat
  data : String → Option (List ℚ)
  sample_data : String → Option ℚ
  trigger_mode : Bool
  is_triggered_ : Bool
  trigger_count : Nat
  trigger_index : Nat
  display_start_index : Nat
  trigger_data_done : Bool
  data_behind : Bool
  trigger_timestamp : Option ℚ
  trigger_level : ℚ
  trigger_type : TriggerType
  trig_data : List (String × List ℚ)
  data_time_field : Option String
  trigger_value : Option ℚ
  missed_triggers : Nat
  missed_adjust_buffer_size : ℚ
  missed_time : ℚ
  enable_trigger_marker : Bool
  data_time_field_on_error : Bool

/-- Trigger.is_triggered. -/
def is_triggered (s : ScopeState) : Bool := s.trigger_mode && s.is_triggered_

/-- The qualification predicate selected by Trigger.set_trigger_type. -/
def is_triggered_func (s : ScopeState) (val : ℚ) : Bool :=
  match s.trigger_type with
  | .onChange => true
  | .gtThreshold => decide (s.trigger_level < val)
  | .ltThreshold => decide (val < s.trigger_level)

/-- Trigger.__trig_max_length: returns the parent PlotWidget max_length. -/
def trig_max_length (s : ScopeState) : Nat := s.max_length

/-- Trigger.add_to_trig_data: append the new samples, keep only the last
max_length elements (numpy append then [-required_data:] slice), and clear the
data_behind latch so triggering may be attempted again. -/
def add_to_trig_data (s : ScopeState) (k : String) (v : List ℚ) : ScopeState :=
  { s with
    trig_data :=
      dictSet s.trig_data k
        (pytail (trig_max_length s) ((dictGet s.trig_data k).getD [] ++ v)),
    data_behind := false }

/-- Trigger.__is_trigger_in_array: -3 when the trigger timestamp was never
captured (logged error), -1 when the timestamp precedes the buffer, -2 when it
is past the buffer, otherwise the searchsorted insertion index. -/
def is_trigger_in_array (trigger_timestamp : Option ℚ) (time_array : List ℚ) : Int :=
  match trigger_timestamp with
  | none => -3
  | some ts =>
    if ts < pyhead time_array then -1
    else if pylast time_array < ts then -2
    else (searchsorted time_array ts : Int)

/-- Trigger.draw_data.  The source dispatches on the code returned by
__is_trigger_in_array (index / -1 / -2 / -3); here the same case split is
written as a match on trigger_timestamp followed by the two range tests, which
partitions the inputs identically.  When the code is -3 (timestamp never
captured) the source falls into the final else branch, whose warning text
evaluates (None - time_data[-1]) and raises an uncaught TypeError: that path is
the crash outcome, with the two mutations made before the raise
(data_time_field_on_error = False, enable_trigger_marker = True) kept. -/
def draw_data (s : ScopeState) : DrawResult × ScopeState :=
  if is_triggered s = false then ({ outcome := .notTriggered, warnings := [] }, s)
  else
    match (match s.data_time_field with
           | none => none
           | some f => dictGet s.trig_data f) with
    | none =>
      -- data_time_field not in trig_data.keys(): publish the tail of every
      -- stored field, warn once while the error persists, emit the signal,
      -- disable the trigger marker.
      let doWarn := s.data_time_field.isSome && !s.data_time_field_on_error
      ({ outcome := .absentFrame,
         warnings := if doWarn then [.dataTimeFieldAbsent] else [] },
       { s with
         data := fun k =>
           match dictGet s.trig_data k with
           | some v => some (pytail s.max_length v)
           | none => s.data k,
         display_start_index := 0,
         enable_trigger_marker := false,
         data_time_field_on_error := if doWarn then true else s.data_time_field_on_error })
    | some time_data =>
      let samples_after_trig := s.max_length / 2
      let s0 := { s with data_time_field_on_error := false, enable_trigger_marker := true }
      match s.trigger_timestamp with
      | none =>
        -- __is_trigger_in_array returned -3; the final else branch raises.
        ({ outcome := .crash, warnings := [] }, s0)
      | some ts =>
        if ts < pyhead time_data then
          -- __is_trigger_in_array returned -1: missed trigger.
          if trig_max_length s ≤ time_data.length then
            let datatimediff := pylast time_data - pyhead time_data
            let timediff := pyhead time_data - ts
            let increasesize := (time_data.length : ℚ) * timediff / datatimediff
            ({ outcome := .missedFull, warnings := [] },
             { s0 with
               missed_triggers := s.missed_triggers + 1,
               missed_adjust_buffer_size := increasesize + (s.max_length : ℚ),
               missed_time := timediff,
               is_triggered_ := false,
               trigger_data_done := true })
          else
            ({ outcome := .missedNotFull, warnings := [] },
             { s0 with is_triggered_ := false, trigger_data_done := true, missed_triggers := 0 })
        else if pylast time_data < ts then
          -- __is_trigger_in_array returned -2: data behind the trigger time.
          ({ outcome := .dataBehind,
             warnings := [.dataBehindBy (ts - pylast time_data)] },
           { s0 with data_behind := true })
        else
          let idx := searchsorted time_data ts
          let s1 := { s0 with missed_triggers := 0, trigger_index := idx }
          let samples_after_trig_cnt := time_data.length - idx
          if samples_after_trig ≤ samples_after_trig_cnt then
            let dsi := idx - samples_after_trig
            let endindex := idx + samples_after_trig
            ({ outcome := .emitted, warnings := [] },
             { s1 with
               display_start_index := dsi,
               data := fun k =>
                 match dictGet s.trig_data k with
                 | some v =>
                   if time_data.length ≤ v.length then
                     some ((v.drop dsi).take (endindex - dsi))
                   else s.data k
                 | none => s.data k })
          else
            ({ outcome := .waiting, warnings := [] }, s1)

/-- Trigger.finish_drawing. -/
def finish_drawing (s : ScopeState) : ScopeState :=
  if s.trigger_mode && s.is_triggered_ then
    { s with is_triggered_ := false, trigger_data_done := true }
  else s

/-- Trigger.data_callback.  value is the trigger PV value; tsField is the
content of the configured trigger_time_field in the batch, when the field is
configured and present (secondsPastEpoch, nanoseconds).  Returns the draw
result when a draw was attempted. -/
def data_callback (s : ScopeState) (value : ℚ) (tsField : Option (Int × Int)) :
    Option DrawResult × ScopeState :=
  let s := { s with trigger_count := s.trigger_count + 1 }
  if s.trigger_count ≤ 1 then (none, s)
  else
    let s := { s with trigger_value := some value }
    if s.plotting_started = false then (none, s)
    else if s.trigger_data_done = false then (none, s)
    else if s.data_behind = true then (none, s)
    else if is_triggered_func s value = false then (none, s)
    else
      let s := { s with
        is_triggered_ := true,
        trigger_data_done := false,
        trigger_timestamp :=
          tsField.map (fun p => (p.1 : ℚ) + (p.2 : ℚ) / 1000000000) }
      let r := draw_data s
      (some r.1, r.2)

/-- PlotWidget.update_buffer: stores the requested value and marks the buffer
as new.  There is no validation and no clamping. -/
def update_buffer (s : ScopeState) (value : Nat) : ScopeState :=
  { s with max_length := value, new_buffer := true }

/-- One decoded field value off the wire: a scalar or a numpy array.  (The
source also skips values that are not numeric at all and arrays of arrays;
those never reach the stores and are not modelled.) -/
inductive BVal where
  | scalar (x : ℚ)
  | array (xs : List ℚ)
deriving DecidableEq

/-- The body of the per-field loop of PlotWidget.data_process: array-id loss
tracking for the designated id field, then scalar-to-array conversion and
storage according to the active mode.  The Bool is the got_data flag
contribution of this entry. -/
def process_entry (s : ScopeState) (k : String) (v : BVal) : ScopeState × Bool :=
  let s :=
    if k = s.current_arrayid then
      match v with
      | .scalar x =>
        let s :=
          match s.lastArrayId with
          | some last =>
            if 1 < x - last then { s with lostArrays := s.lostArrays + 1 } else s
          | none => s
        { s with lastArrayId := some x }
      | .array _ => s
    else s
  let xs := match v with
    | .scalar x => [x]          -- np.isscalar(v): v = np.array([v])
    | .array xs => xs
  if xs = [] then (s, false)
  else if s.sampling_mode then
    ({ s with sample_data := fun k2 =>
        if k2 = k then some (pylast xs) else s.sample_data k2 }, true)
  else if s.trigger_mode then
    (add_to_trig_data s k xs, true)
  else
    ({ s with data := fun k2 =>
        if k2 = k then some (pytail s.max_length (((s.data k).getD []) ++ xs))
        else s.data k2 }, true)

def process_entries (s : ScopeState) (batch : List (String × BVal)) :
    ScopeState × Bool :=
  batch.foldl
    (fun acc kv =>
      let r := process_entry acc.1 kv.1 kv.2
      (r.1, acc.2 || r.2))
    (s, false)

/-- PlotWidget.data_process: count the batch, skip everything while frozen,
run the per-field loop, and let the trigger engine attempt a draw whenever any
array-like data arrived this cycle.  (The data_size statistics and the mutex
discipline are not modelled; the secondary-waveform id trackers are outside
the claims.) -/
def data_process (s : ScopeState) (batch : List (String × BVal)) : ScopeState :=
  let s := { s with arraysReceived := s.arraysReceived + 1 }
  if s.is_freeze then s
  else
    let r := process_entries s batch
    if r.2 then (draw_data r.1).2 else r.1

/- Connection layer (src/c2dataviewer/model/pvapy_plugins.py). -/

inductive ProviderType where
  | pva
  | ca
deriving DecidableEq

inductive ConnectionState where
  | disconnected
  | connecting
  | connected
  | disconnecting
  | failed_to_connect
  | empty
deriving DecidableEq

/-- Channel wrapper.  chanId is an identity token: distinct constructed pva
channel objects carry distinct ids, so returning a channel with the same
chanId means returning the very same object. -/
structure Channel where
  name : String
  provider : ProviderType
  status_callback : Option Nat
  state : ConnectionState
  chanId : Nat
deriving DecidableEq

/-- Channel.reactivate: attach the new status callback and reset the state to
DISCONNECTED without reopening the transport. -/
def Channel.reactivate (c : Channel) (new_status_callback : Nat) : Channel :=
  { c with status_callback := some new_status_callback,
           state := ConnectionState.disconnected }

structure DataSourceState where
  channel_cache : List (String × Channel)
  next_chan_id : Nat
deriving DecidableEq

structure CreateResult where
  channel : Option Channel
  error_called : Bool
  st : DataSourceState
deriving DecidableEq

/-- DataSource.create_connection.  probe_ok is the outcome of the synchronous
connectivity probe chan.get() performed when check_connection is set (the
source catches every exception from it).  A cached channel whose provider
matches is reactivated and returned as-is; otherwise a channel is constructed
(consuming a fresh identity), and on probe failure the error callback is
invoked, None is returned, and the fresh channel is never cached. -/
def create_connection (st : DataSourceState) (name : String)
    (provider : ProviderType) (check_connection : Bool)
    (status_callback : Nat) (probe_ok : Bool) : CreateResult :=
  match dictGet st.channel_cache name with
  | some c =>
    if c.provider = provider then
      let c2 := c.reactivate status_callback
      { channel := some c2, error_called := false,
        st := { st with channel_cache := dictSet st.channel_cache name c2 } }
    else
      let chan : Channel :=
        { name := name, provider := provider,
          status_callback := some status_callback,
          state := ConnectionState.disconnected, chanId := st.next_chan_id }
      let st1 := { st with next_chan_id := st.next_chan_id + 1 }
      if check_connection && !probe_ok then
        { channel := none, error_called := true, st := st1 }
      else
        { channel := some chan, error_called := false,
          st := { st1 with channel_cache := dictSet st1.channel_cache name chan } }
  | none =>
    let chan : Channel :=
      { name := name, provider := provider,
        status_callback := some status_callback,
        state := ConnectionState.disconnected, chanId := st.next_chan_id }
    let st1 := { st with next_chan_id := st.next_chan_id + 1 }
    if check_connection && !probe_ok then
      { channel := none, error_called := true, st := st1 }
    else
      { channel := some chan, error_called := false,
        st := { st1 with channel_cache := dictSet st1.channel_cache name chan } }

/-- A neutral PlotWidget/Trigger state used to build the concrete states of
the witnesses and counterexamples. -/
def baseState : ScopeState where
  max_length := 10
  new_buffer := false
  is_freeze := false
  sampling_mode := false
  plotting_started := true
  current_arrayid := "ArrayId"
  lastArrayId := none
  lostArrays := 0
  arraysReceived := 0
  data := fun _ => none
  sample_data := fun _ => none
  trigger_mode := false
  is_triggered_ := false
  trigger_count := 0
  trigger_index := 0
  display_start_index := 0
  trigger_data_done := true
  data_behind := false
  trigger_timestamp := none
  trigger_level := 0
  trigger_type := TriggerType.onChange
  trig_data := []
  data_time_field := none
  trigger_value := none
  missed_triggers := 0
  missed_adjust_buffer_size := 0
  missed_time := 0
  enable_trigger_marker := true
  data_time_field_on_error := false

/- Helper lemmas about the list-level primitives. -/

lemma pytail_eq_drop {α : Type} (m : Nat) (l : List α) (hm : 1 ≤ m) :
    pytail m l = l.drop (l.length - m) := by
  unfold pytail
  rw [if_neg (by omega)]

lemma pytail_length_le {α : Type} (m : Nat) (l : List α) (hm : 1 ≤ m) :
    (pytail m l).length ≤ m := by
  rw [pytail_eq_drop m l hm, List.length_drop]
  omega

lemma dictGet_mem {α : Type} {d : List (String × α)} {k : String} {v : α}
    (h : dictGet d k = some v) : (k, v) ∈ d := by
  induction d with
  | nil => simp [dictGet] at h
  | cons kv rest ih =>
    obtain ⟨k2, v2⟩ := kv
    by_cases hk : k2 = k
    · subst hk
      rw [dictGet, if_pos rfl] at h
      obtain rfl : v2 = v := by injection h
      exact List.mem_cons_self _ _
    · rw [dictGet, if_neg hk] at h
      exact List.mem_cons_of_mem _ (ih h)

lemma dictSet_mem {α : Type} {d : List (String × α)} {k : String} {v : α}
    {kv : String × α} (h : kv ∈ dictSet d k v) : kv.2 = v ∨ kv ∈ d := by
  induction d with
  | nil =>
    simp only [dictSet, List.mem_singleton] at h
    subst h
    exact Or.inl rfl
  | cons kv2 rest ih =>
    obtain ⟨k2, v2⟩ := kv2
    by_cases hk : k2 = k
    · rw [dictSet, if_pos hk] at h
      rcases List.mem_cons.mp h with h2 | h2
      · subst h2; exact Or.inl rfl
      · exact Or.inr (List.mem_cons_of_mem _ h2)
    · rw [dictSet, if_neg hk] at h
      rcases List.mem_cons.mp h with h2 | h2
      · subst h2; exact Or.inr (List.mem_cons_self _ _)
      · rcases ih h2 with h3 | h3
        · exact Or.inl h3
        · exact Or.inr (List.mem_cons_of_mem _ h3)

lemma searchsorted_le_length (a : List ℚ) (v : ℚ) :
    searchsorted a v ≤ a.length := by
  induction a with
  | nil => simp [searchsorted]
  | cons x rest ih =>
    rw [searchsorted]
    split
    · simpa using ih
    · simp

lemma getD_lt_of_lt_searchsorted {a : List ℚ} {v : ℚ} :
    ∀ {j : Nat}, j < searchsorted a v → a.getD j 0 < v := by
  induction a with
  | nil => intro j h; simp [searchsorted] at h
  | cons x rest ih =>
    intro j h
    rw [searchsorted] at h
    by_cases hx : x < v
    · rw [if_pos hx] at h
      cases j with
      | zero => simpa using hx
      | succ i =>
        rw [List.getD_cons_succ]
        exact ih (by omega)
    · rw [if_neg hx] at h
      omega

lemma le_getD_searchsorted {a : List ℚ} {v : ℚ}
    (h : searchsorted a v < a.length) : v ≤ a.getD (searchsorted a v) 0 := by
  induction a with
  | nil => simp [searchsorted] at h
  | cons x rest ih =>
    by_cases hx : x < v
    · have he : searchsorted (x :: rest) v = searchsorted rest v + 1 := by
        rw [searchsorted, if_pos hx]
      rw [he] at h ⊢
      rw [List.getD_cons_succ]
      exact ih (by simpa using h)
    · have he : searchsorted (x :: rest) v = 0 := by
        rw [searchsorted, if_neg hx]
      rw [he, List.getD_cons_zero]
      exact le_of_not_lt hx

lemma getD_mem_of_lt {a : List ℚ} : ∀ {j : Nat}, j < a.length → a.getD j 0 ∈ a := by
  induction a with
  | nil => intro j h; simp at h
  | cons x rest ih =>
    intro j h
    cases j with
    | zero => simp
    | succ i =>
      rw [List.getD_cons_succ]
      exact List.mem_cons_of_mem _ (ih (by simpa using h))

lemma sorted_getD_mono {a : List ℚ} (hs : a.Sorted (fun x y => x ≤ y)) :
    ∀ i j : Nat, i ≤ j → j < a.length → a.getD i 0 ≤ a.getD j 0 := by
  induction a with
  | nil => intro i j hij hj; simp at hj
  | cons x rest ih =>
    have hcons := List.sorted_cons.mp hs
    intro i j hij hj
    cases i with
    | zero =>
      cases j with
      | zero => exact le_refl _
      | succ j2 =>
        rw [List.getD_cons_zero, List.getD_cons_succ]
        have hmem : rest.getD j2 0 ∈ rest := getD_mem_of_lt (by simpa using hj)
        exact hcons.1 _ hmem
    | succ i2 =>
      cases j with
      | zero => omega
      | succ j2 =>
        rw [List.getD_cons_succ, List.getD_cons_succ]
        exact ih hcons.2 i2 j2 (by omega) (by simpa using hj)

lemma searchsorted_lt_length {a : List ℚ} {v : ℚ}
    (hne : a ≠ []) (h2 : v ≤ pylast a) : searchsorted a v < a.length := by
  have hlen : 0 < a.length := List.length_pos.mpr hne
  by_contra hcon
  have heq : searchsorted a v = a.length := by
    have := searchsorted_le_length a v
    omega
  have hlast : a.getD (a.length - 1) 0 < v :=
    getD_lt_of_lt_searchsorted (by omega)
  rw [pylast] at h2
  linarith

/-- On a sorted nonempty buffer whose last element is at or past the trigger
timestamp, some index nearest to the timestamp lies within one position of the
searchsorted insertion index. -/
lemma nearest_exists (a : List ℚ) (ts : ℚ)
    (hs : a.Sorted (fun x y => x ≤ y)) (hne : a ≠ []) (h2 : ts ≤ pylast a) :
    ∃ n : Nat, n < a.length ∧ searchsorted a ts - 1 ≤ n ∧ n ≤ searchsorted a ts ∧
      ∀ j : Nat, j < a.length → |a.getD n 0 - ts| ≤ |a.getD j 0 - ts| := by
  have hidxlt : searchsorted a ts < a.length := searchsorted_lt_length hne h2
  have hub : ts ≤ a.getD (searchsorted a ts) 0 := le_getD_searchsorted hidxlt
  rcases Nat.eq_zero_or_pos (searchsorted a ts) with hz | hpos
  · refine ⟨0, by omega, by omega, by omega, ?_⟩
    intro j hj
    have h0j : a.getD 0 0 ≤ a.getD j 0 := sorted_getD_mono hs 0 j (by omega) hj
    have h0 : ts ≤ a.getD 0 0 := by rw [hz] at hub; exact hub
    rw [abs_of_nonneg (by linarith), abs_of_nonneg (by linarith)]
    linarith
  · have hi : searchsorted a ts - 1 < searchsorted a ts := by omega
    have hia : a.getD (searchsorted a ts - 1) 0 < ts :=
      getD_lt_of_lt_searchsorted hi
    by_cases hc :
        ts - a.getD (searchsorted a ts - 1) 0 ≤ a.getD (searchsorted a ts) 0 - ts
    · refine ⟨searchsorted a ts - 1, by omega, by omega, by omega, ?_⟩
      intro j hj
      rw [abs_of_nonpos (by linarith), neg_sub]
      rcases Nat.lt_or_ge j (searchsorted a ts) with hjlt | hjge
      · have hji : j ≤ searchsorted a ts - 1 := by omega
        have hmono : a.getD j 0 ≤ a.getD (searchsorted a ts - 1) 0 :=
          sorted_getD_mono hs j _ hji (by omega)
        have hja : a.getD j 0 < ts :=
          getD_lt_of_lt_searchsorted hjlt
        rw [abs_of_nonpos (by linarith), neg_sub]
        linarith
      · have hmono : a.getD (searchsorted a ts) 0 ≤ a.getD j 0 :=
          sorted_getD_mono hs _ j hjge hj
        rw [abs_of_nonneg (by linarith)]
        linarith
    · refine ⟨searchsorted a ts, by omega, by omega, by omega, ?_⟩
      intro j hj
      rw [abs_of_nonneg (by linarith)]
      rcases Nat.lt_or_ge j (searchsorted a ts) with hjlt | hjge
      · have hji : j ≤ searchsorted a ts - 1 := by omega
        have hmono : a.getD j 0 ≤ a.getD (searchsorted a ts - 1) 0 :=
          sorted_getD_mono hs j _ hji (by omega)
        have hja : a.getD j 0 < ts :=
          getD_lt_of_lt_searchsorted hjlt
        rw [abs_of_nonpos (by linarith), neg_sub]
        linarith
      · have hmono : a.getD (searchsorted a ts) 0 ≤ a.getD j 0 :=
          sorted_getD_mono hs _ j hjge hj
        rw [abs_of_nonneg (by linarith)]
        linarith

/- Preservation lemmas for the engine transitions. -/

lemma draw_data_preserves (s : ScopeState) :
    ((draw_data s).2).lostArrays = s.lostArrays ∧
    ((draw_data s).2).lastArrayId = s.lastArrayId ∧
    ((draw_data s).2).max_length = s.max_length ∧
    ((draw_data s).2).trig_data = s.trig_data ∧
    ((draw_data s).2).is_freeze = s.is_freeze := by
  unfold draw_data
  dsimp only
  repeat' split
  all_goals exact ⟨rfl, rfl, rfl, rfl, rfl⟩

lemma process_entry_fields (s : ScopeState) (k : String) (v : BVal) :
    s.lostArrays ≤ ((process_entry s k v).1).lostArrays ∧
    ((process_entry s k v).1).max_length = s.max_length := by
  unfold process_entry add_to_trig_data
  dsimp only
  repeat' split
  all_goals refine ⟨?_, rfl⟩
  all_goals dsimp only
  all_goals omega

lemma process_entry_id (s : ScopeState) (x last : ℚ)
    (hlast : s.lastArrayId = some last) :
    ((process_entry s s.current_arrayid (BVal.scalar x)).1).lostArrays
        = s.lostArrays + (if 1 < x - last then 1 else 0) ∧
    ((process_entry s s.current_arrayid (BVal.scalar x)).1).lastArrayId = some x ∧
    (process_entry s s.current_arrayid (BVal.scalar x)).2 = true := by
  unfold process_entry add_to_trig_data
  dsimp only
  rw [if_pos rfl, hlast]
  by_cases hgap : 1 < x - last
  · simp only [if_pos hgap]
    split_ifs
    all_goals first
      | exact ⟨rfl, rfl, rfl⟩
      | simp_all
  · simp only [if_neg hgap]
    split_ifs
    all_goals first
      | exact ⟨by omega, rfl, rfl⟩
      | simp_all

lemma process_entries_lost_mono (batch : List (String × BVal)) :
    ∀ acc : ScopeState × Bool,
      acc.1.lostArrays ≤
        ((batch.foldl
          (fun acc kv =>
            let r := process_entry acc.1 kv.1 kv.2
            (r.1, acc.2 || r.2)) acc).1).lostArrays := by
  induction batch with
  | nil => intro acc; exact le_refl _
  | cons kv rest ih =>
    intro acc
    dsimp only [List.foldl_cons]
    exact le_trans (process_entry_fields acc.1 kv.1 kv.2).1
      (ih ((process_entry acc.1 kv.1 kv.2).1, acc.2 || (process_entry acc.1 kv.1 kv.2).2))

lemma data_process_lost_mono (s : ScopeState) (batch : List (String × BVal)) :
    s.lostArrays ≤ (data_process s batch).lostArrays := by
  unfold data_process process_entries
  dsimp only
  split
  · exact le_refl _
  · split
    · have h2 := (draw_data_preserves
        ((batch.foldl
          (fun acc kv =>
            let r := process_entry acc.1 kv.1 kv.2
            (r.1, acc.2 || r.2))
          ({ s with arraysReceived := s.arraysReceived + 1 }, false)).1)).1
      rw [h2]
      exact process_entries_lost_mono batch
        ({ s with arraysReceived := s.arraysReceived + 1 }, false)
    · exact process_entries_lost_mono batch
        ({ s with arraysReceived := s.arraysReceived + 1 }, false)

/-- C2 (amended): for the designated array-id field, PlotWidget.data_process
increments the lost-array count by exactly one when newId - lastId - 1 is
positive (i.e. newId - lastId > 1) and by zero otherwise, records the new id,
and the count never decreases across any ingested batch. -/
theorem C2_lost_count (s : ScopeState) (last x : ℚ)
    (hfreeze : s.is_freeze = false) (hlast : s.lastArrayId = some last) :
    ((data_process s [(s.current_arrayid, BVal.scalar x)]).lostArrays
        = s.lostArrays + (if 1 < x - last then 1 else 0)) ∧
    ((data_process s [(s.current_arrayid, BVal.scalar x)]).lastArrayId = some x) ∧
    ∀ batch : List (String × BVal),
      s.lostArrays ≤ (data_process s batch).lostArrays := by
  have hpe := process_entry_id { s with arraysReceived := s.arraysReceived + 1 } x last hlast
  refine ⟨?_, ?_, fun batch => data_process_lost_mono s batch⟩
  · unfold data_process process_entries
    dsimp only [List.foldl_cons, List.foldl_nil]
    rw [if_neg (by simp [hfreeze])]
    rw [show ∀ b : Bool, (false || b) = b from fun b => Bool.false_or b] at *
    rw [hpe.2.2, if_pos rfl]
    rw [(draw_data_preserves _).1, hpe.1]
  · unfold data_process process_entries
    dsimp only [List.foldl_cons, List.foldl_nil]
    rw [if_neg (by simp [hfreeze])]
    rw [show ∀ b : Bool, (false || b) = b from fun b => Bool.false_or b] at *
    rw [hpe.2.2, if_pos rfl]
    rw [(draw_data_preserves _).2.1, hpe.2.1]

/-- C2 witness: a concrete gap of exactly two ids increments the count by
one. -/
theorem C2_lost_count_witness :
    ({ baseState with lastArrayId := some 1 } : ScopeState).is_freeze = false ∧
    ({ baseState with lastArrayId := some 1 } : ScopeState).lastArrayId = some 1 ∧
    (data_process { baseState with lastArrayId := some 1 }
        [(({ baseState with lastArrayId := some 1 } : ScopeState).current_arrayid,
          BVal.scalar 4)]).lostArrays
      = ({ baseState with lastArrayId := some 1 } : ScopeState).lostArrays
        + (if (1 : ℚ) < 4 - 1 then 1 else 0) :=
  ⟨rfl, rfl, (C2_lost_count { baseState with lastArrayId := some 1 } 1 4 rfl rfl).1⟩

/-- C2 counterexample: ids 1 then 5 have newId - lastId - 1 = 3, but the code
increments the lost count by exactly 1, not by 3, refuting the claimed
increment of (newId - lastId - 1). -/
theorem C2_lost_count_counterexample :
    (data_process { baseState with lastArrayId := some 1 }
        [("ArrayId", BVal.scalar 5)]).lostArrays = 1 ∧
    ((5 : ℚ) - 1 - 1 = 3) ∧ (1 : Nat) ≠ 3 := by
  refine ⟨?_, by norm_num, by omega⟩
  norm_num [data_process, process_entries, process_entry, add_to_trig_data,
    draw_data, is_triggered, trig_max_length, pytail, baseState]

/-- C9 (amended): PlotWidget.update_buffer stores the requested buffer size
verbatim as max_length and marks the buffer as new; it performs no validation
and never clamps, and it leaves the stores untouched (any rejection of
invalid sizes is caller-side policy). -/
theorem C9_update_buffer (s : ScopeState) (value : Nat) :
    (update_buffer s value).max_length = value ∧
    (update_buffer s value).new_buffer = true ∧
    (update_buffer s value).data = s.data ∧
    (update_buffer s value).trig_data = s.trig_data ∧
    (update_buffer s value).lostArrays = s.lostArrays :=
  ⟨rfl, rfl, rfl, rfl, rfl⟩

/-- C9 counterexample: requesting the invalid (non-positive) buffer size 0 is
not rejected: the stored max_length changes from 100 to 0, refuting the claim
that the stored maxLength is left unchanged on an invalid request. -/
theorem C9_update_buffer_counterexample :
    (update_buffer { baseState with max_length := 100 } 0).max_length = 0 ∧
    ¬ (0 : Nat) < 0 ∧
    (update_buffer { baseState with max_length := 100 } 0).max_length ≠ 100 := by
  exact ⟨rfl, by omega, by decide⟩

/-- C7: Trigger.finish_drawing while Triggered resets the engine to Armed
(not triggered, trigger data done); finish_drawing is idempotent, and after it
a draw attempt returns immediately with no emission and no state change, so a
qualifying trigger event yields exactly one emitted window. -/
theorem C7_finish_drawing_once (s : ScopeState) :
    finish_drawing (finish_drawing s) = finish_drawing s ∧
    (s.trigger_mode = true → s.is_triggered_ = true →
      (finish_drawing s).is_triggered_ = false ∧
      (finish_drawing s).trigger_data_done = true) ∧
    (draw_data (finish_drawing s)).1.outcome = DrawOutcome.notTriggered ∧
    (draw_data (finish_drawing s)).1.outcome.signaled = false ∧
    (draw_data (finish_drawing s)).2 = finish_drawing s := by
  cases hm : s.trigger_mode <;> cases ht : s.is_triggered_ <;>
    simp [finish_drawing, draw_data, is_triggered, hm, ht, DrawOutcome.signaled]

/-- C7 witness: at a concrete Triggered state, finish_drawing resets to
Armed. -/
theorem C7_finish_drawing_once_witness :
    ({ baseState with trigger_mode := true, is_triggered_ := true } : ScopeState).trigger_mode = true ∧
    (finish_drawing { baseState with trigger_mode := true, is_triggered_ := true }).is_triggered_ = false ∧
    (finish_drawing { baseState with trigger_mode := true, is_triggered_ := true }).trigger_data_done = true := by
  have h :=
    (C7_finish_drawing_once
      { baseState with trigger_mode := true, is_triggered_ := true }).2.1 rfl rfl
  exact ⟨rfl, h.1, h.2⟩

/-- C8: DataSource.create_connection returns the cached channel itself,
reactivated (same identity, new status callback, state Disconnected, no new
channel constructed), when a channel with the requested provider is cached
under the name; and when a fresh channel must be constructed and its
synchronous probe fails, the error callback is invoked, the call returns no
channel, and the cache is left unchanged. -/
theorem C8_create_connection :
    (∀ (st : DataSourceState) (name : String) (provider : ProviderType)
        (check_connection : Bool) (cb : Nat) (probe_ok : Bool) (c : Channel),
      dictGet st.channel_cache name = some c → c.provider = provider →
        (create_connection st name provider check_connection cb probe_ok).channel
            = some (c.reactivate cb) ∧
        (c.reactivate cb).chanId = c.chanId ∧
        (c.reactivate cb).state = ConnectionState.disconnected ∧
        (c.reactivate cb).status_callback = some cb ∧
        (create_connection st name provider check_connection cb probe_ok).st.next_chan_id
            = st.next_chan_id ∧
        (create_connection st name provider check_connection cb probe_ok).error_called
            = false) ∧
    (∀ (st : DataSourceState) (name : String) (provider : ProviderType) (cb : Nat),
      (∀ c, dictGet st.channel_cache name = some c → c.provider ≠ provider) →
        (create_connection st name provider true cb false).channel = none ∧
        (create_connection st name provider true cb false).error_called = true ∧
        (create_connection st name provider true cb false).st.channel_cache
            = st.channel_cache) := by
  constructor
  · intro st name provider check_connection cb probe_ok c hc hp
    unfold create_connection
    rw [hc]
    dsimp only
    rw [if_pos hp]
    exact ⟨rfl, rfl, rfl, rfl, rfl, rfl⟩
  · intro st name provider cb hmis
    unfold create_connection
    cases hc : dictGet st.channel_cache name with
    | none =>
      try dsimp only
      rw [if_pos (by simp)]
      exact ⟨rfl, rfl, rfl⟩
    | some c =>
      try dsimp only
      rw [if_neg (hmis c hc)]
      try dsimp only
      rw [if_pos (by simp)]
      exact ⟨rfl, rfl, rfl⟩

/-- A concrete deactivated cached channel used by the C8 witness. -/
def cacheDemoChannel : Channel where
  name := "pv1"
  provider := ProviderType.pva
  status_callback := none
  state := ConnectionState.empty
  chanId := 3

/-- A concrete DataSource state holding cacheDemoChannel, for the C8
witness. -/
def cacheDemoSource : DataSourceState where
  channel_cache := [("pv1", cacheDemoChannel)]
  next_chan_id := 7

/-- C8 witness: reusing the cached channel (identity 3, state Disconnected,
callback reattached, no construction) and a failing probe on an empty cache
(error callback invoked, nothing cached). -/
theorem C8_create_connection_witness :
    (create_connection cacheDemoSource "pv1" ProviderType.pva true 9 true).channel
        = some (cacheDemoChannel.reactivate 9) ∧
    (cacheDemoChannel.reactivate 9).chanId = 3 ∧
    (cacheDemoChannel.reactivate 9).state = ConnectionState.disconnected ∧
    (create_connection cacheDemoSource "pv1" ProviderType.pva true 9 true).st.next_chan_id = 7 ∧
    (create_connection { channel_cache := [], next_chan_id := 0 } "pv2"
        ProviderType.ca true 9 false).channel = none ∧
    (create_connection { channel_cache := [], next_chan_id := 0 } "pv2"
        ProviderType.ca true 9 false).error_called = true ∧
    (create_connection { channel_cache := [], next_chan_id := 0 } "pv2"
        ProviderType.ca true 9 false).st.channel_cache = [] := by
  have h1 := C8_create_connection.1 cacheDemoSource "pv1" ProviderType.pva
    true 9 true cacheDemoChannel (by simp [cacheDemoSource, dictGet]) rfl
  have h2 := C8_create_connection.2 { channel_cache := [], next_chan_id := 0 }
    "pv2" ProviderType.ca 9 (by simp [dictGet])
  exact ⟨h1.1, h1.2.1, h1.2.2.1, h1.2.2.2.2.1, h2.1, h2.2.1, h2.2.2⟩

/-- A concrete Triggered state whose trigger timestamp was never captured
while the data time field is buffered, for C6. -/
def crashState : ScopeState :=
  { baseState with
      trigger_mode := true
      is_triggered_ := true
      data_time_field := some "t"
      trig_data := [("t", [1, 2])]
      trigger_timestamp := none }

/-- C6 (code bug evidence): with the engine Triggered, the configured data
time field present in the trigger store, but the trigger timestamp never
captured (the trigger time field was missing from the trigger PV batch),
draw_data does not skip with only a logged error: __is_trigger_in_array
returns -3 and the final else branch evaluates
(self.trigger_timestamp - time_data[-1]) with trigger_timestamp = None,
raising an uncaught TypeError after having already mutated
data_time_field_on_error and enable_trigger_marker. -/
theorem C6_missing_timestamp_crash :
    (draw_data crashState).1.outcome = DrawOutcome.crash ∧
    (draw_data crashState).1.outcome.signaled = false ∧
    (draw_data crashState).2.enable_trigger_marker = true ∧
    is_trigger_in_array none [1, 2] = -3 := by
  norm_num [draw_data, is_triggered, dictGet, baseState, crashState,
    DrawOutcome.signaled, is_trigger_in_array]

/-- Closed form of draw_data when the engine is triggered, the data time
field is buffered and the trigger timestamp is captured: the four
__is_trigger_in_array driven branches. -/
lemma draw_data_eq (s : ScopeState) (f : String) (a : List ℚ) (ts : ℚ)
    (hmode : s.trigger_mode = true) (htrig : s.is_triggered_ = true)
    (hf : s.data_time_field = some f) (ha : dictGet s.trig_data f = some a)
    (hts : s.trigger_timestamp = some ts) :
    draw_data s =
      if ts < pyhead a then
        (if s.max_length ≤ a.length then
          ({ outcome := DrawOutcome.missedFull, warnings := [] },
           { s with data_time_field_on_error := false, enable_trigger_marker := true,
                    missed_triggers := s.missed_triggers + 1,
                    missed_adjust_buffer_size :=
                      (a.length : ℚ) * (pyhead a - ts) / (pylast a - pyhead a)
                        + (s.max_length : ℚ),
                    missed_time := pyhead a - ts,
                    is_triggered_ := false, trigger_data_done := true })
        else
          ({ outcome := DrawOutcome.missedNotFull, warnings := [] },
           { s with data_time_field_on_error := false, enable_trigger_marker := true,
                    is_triggered_ := false, trigger_data_done := true,
                    missed_triggers := 0 }))
      else if pylast a < ts then
        ({ outcome := DrawOutcome.dataBehind,
           warnings := [TrigWarning.dataBehindBy (ts - pylast a)] },
         { s with data_time_field_on_error := false, enable_trigger_marker := true,
                  data_behind := true })
      else
        if s.max_length / 2 ≤ a.length - searchsorted a ts then
          ({ outcome := DrawOutcome.emitted, warnings := [] },
           { s with data_time_field_on_error := false, enable_trigger_marker := true,
                    missed_triggers := 0, trigger_index := searchsorted a ts,
                    display_start_index := searchsorted a ts - s.max_length / 2,
                    data := fun k =>
                      match dictGet s.trig_data k with
                      | some v =>
                        if a.length ≤ v.length then
                          some ((v.drop (searchsorted a ts - s.max_length / 2)).take
                            ((searchsorted a ts + s.max_length / 2)
                              - (searchsorted a ts - s.max_length / 2)))
                        else s.data k
                      | none => s.data k })
        else
          ({ outcome := DrawOutcome.waiting, warnings := [] },
           { s with data_time_field_on_error := false, enable_trigger_marker := true,
                    missed_triggers := 0, trigger_index := searchsorted a ts }) := by
  have hit : is_triggered s = true := by simp [is_triggered, hmode, htrig]
  unfold draw_data trig_max_length
  rw [hit]
  rw [if_neg (by simp)]
  rw [hf]
  try dsimp only
  rw [ha]
  try dsimp only
  rw [hts]

/-- C4 (amended): on a missed trigger (timestamp before the buffered time
reference) with a full buffer, draw_data surfaces the buffer-resize
recommendation bufferLen * timeDeficit / timeSpan PLUS the current maxLength,
increments the missed-trigger count and resets to Armed; with a buffer not
yet full it resets to Armed, zeroes the missed count and leaves the
recommendation untouched.  No frame is emitted in either case. -/
theorem C4_missed_trigger (s : ScopeState) (f : String) (a : List ℚ) (ts : ℚ)
    (hmode : s.trigger_mode = true) (htrig : s.is_triggered_ = true)
    (hf : s.data_time_field = some f) (ha : dictGet s.trig_data f = some a)
    (hts : s.trigger_timestamp = some ts) (hlt : ts < pyhead a) :
    (s.max_length ≤ a.length →
      (draw_data s).1.outcome = DrawOutcome.missedFull ∧
      (draw_data s).2.missed_adjust_buffer_size
          = (a.length : ℚ) * (pyhead a - ts) / (pylast a - pyhead a)
            + (s.max_length : ℚ) ∧
      (draw_data s).2.missed_triggers = s.missed_triggers + 1 ∧
      (draw_data s).2.missed_time = pyhead a - ts ∧
      (draw_data s).2.is_triggered_ = false ∧
      (draw_data s).2.trigger_data_done = true ∧
      (draw_data s).1.outcome.signaled = false) ∧
    (a.length < s.max_length →
      (draw_data s).1.outcome = DrawOutcome.missedNotFull ∧
      (draw_data s).2.is_triggered_ = false ∧
      (draw_data s).2.trigger_data_done = true ∧
      (draw_data s).2.missed_triggers = 0 ∧
      (draw_data s).2.missed_adjust_buffer_size = s.missed_adjust_buffer_size ∧
      (draw_data s).1.outcome.signaled = false) := by
  rw [draw_data_eq s f a ts hmode htrig hf ha hts, if_pos hlt]
  constructor
  · intro hfull
    rw [if_pos hfull]
    exact ⟨rfl, rfl, rfl, rfl, rfl, rfl, rfl⟩
  · intro hsmall
    rw [if_neg (by omega)]
    exact ⟨rfl, rfl, rfl, rfl, rfl, rfl⟩

/-- A concrete missed-trigger state with a full time buffer, for C4. -/
def missState : ScopeState :=
  { baseState with
      max_length := 2
      trigger_mode := true
      is_triggered_ := true
      data_time_field := some "t"
      trig_data := [("t", [10, 20])]
      trigger_timestamp := some 5 }

/-- The same missed-trigger situation with a buffer that is not yet full,
for C4. -/
def missSmallState : ScopeState := { missState with max_length := 5 }

/-- C4 witness: at concrete missed-trigger states, the full buffer increments
the missed count and disarms, the non-full buffer disarms with a zeroed
count. -/
theorem C4_missed_trigger_witness :
    (draw_data missState).1.outcome = DrawOutcome.missedFull ∧
    (draw_data missState).2.missed_triggers = missState.missed_triggers + 1 ∧
    (draw_data missState).2.is_triggered_ = false ∧
    (draw_data missSmallState).1.outcome = DrawOutcome.missedNotFull ∧
    (draw_data missSmallState).2.missed_triggers = 0 := by
  have h1 := C4_missed_trigger missState "t" [10, 20] 5 rfl rfl rfl
    (by simp [missState, baseState, dictGet]) rfl (by norm_num [pyhead])
  have h2 := C4_missed_trigger missSmallState "t" [10, 20] 5 rfl rfl rfl
    (by simp [missSmallState, missState, baseState, dictGet]) rfl
    (by norm_num [pyhead])
  have hfull := h1.1 (by norm_num [missState, baseState])
  have hsmall := h2.2 (by norm_num [missSmallState, missState, baseState])
  exact ⟨hfull.1, hfull.2.2.1, hfull.2.2.2.2.1, hsmall.1, hsmall.2.2.2.1⟩

/-- C4 counterexample: at missState the surfaced recommendation is 3, while
the claimed value bufferLen * timeDeficit / timeSpan is 1: the code adds the
current maxLength on top of the extrapolated deficit. -/
theorem C4_missed_trigger_counterexample :
    (draw_data missState).2.missed_adjust_buffer_size = 3 ∧
    ((([10, 20] : List ℚ).length : ℚ) * (10 - 5) / (20 - 10) = 1) ∧
    (3 : ℚ) ≠ 1 := by
  refine ⟨?_, by norm_num, by norm_num⟩
  norm_num [draw_data, is_triggered, missState, baseState, dictGet, pyhead,
    pylast, trig_max_length, searchsorted]

/-- C5: when the trigger timestamp is past the last buffered time-reference
element, draw_data latches data_behind and surfaces a warning carrying the
deficit (timestamp minus newest buffered time) without emitting; while
data_behind holds, data_callback rejects every qualification attempt and
leaves the trigger state and both stores untouched; and a window emission can
only happen once the trailing edge of the time reference has reached or
passed the trigger timestamp. -/
theorem C5_data_behind_engine :
    (∀ (s : ScopeState) (f : String) (a : List ℚ) (ts : ℚ),
       s.trigger_mode = true → s.is_triggered_ = true →
       s.data_time_field = some f → dictGet s.trig_data f = some a →
       a.Sorted (fun x y => x ≤ y) → a ≠ [] →
       s.trigger_timestamp = some ts → pylast a < ts →
         (draw_data s).1.outcome = DrawOutcome.dataBehind ∧
         (draw_data s).1.warnings = [TrigWarning.dataBehindBy (ts - pylast a)] ∧
         (draw_data s).2.data_behind = true ∧
         (draw_data s).1.outcome.signaled = false ∧
         (draw_data s).2.data = s.data) ∧
    (∀ (s : ScopeState) (value : ℚ) (tsField : Option (Int × Int)),
       s.data_behind = true →
         (data_callback s value tsField).1 = none ∧
         (data_callback s value tsField).2.is_triggered_ = s.is_triggered_ ∧
         (data_callback s value tsField).2.trigger_data_done = s.trigger_data_done ∧
         (data_callback s value tsField).2.trigger_timestamp = s.trigger_timestamp ∧
         (data_callback s value tsField).2.trig_data = s.trig_data ∧
         (data_callback s value tsField).2.data = s.data) ∧
    (∀ (s : ScopeState) (f : String) (a : List ℚ) (ts : ℚ),
       s.data_time_field = some f → dictGet s.trig_data f = some a →
       s.trigger_timestamp = some ts →
       (draw_data s).1.outcome = DrawOutcome.emitted →
         ts ≤ pylast a) := by
  refine ⟨?_, ?_, ?_⟩
  · intro s f a ts hmode htrig hf ha hsort hne hts hgt
    have hlen : 0 < a.length := List.length_pos.mpr hne
    have hple : pyhead a ≤ pylast a :=
      sorted_getD_mono hsort 0 (a.length - 1) (by omega) (by omega)
    rw [draw_data_eq s f a ts hmode htrig hf ha hts,
        if_neg (by rw [not_lt]; linarith), if_pos hgt]
    exact ⟨rfl, rfl, rfl, rfl, rfl⟩
  · intro s value tsField h
    unfold data_callback
    dsimp only
    split_ifs
    all_goals first
      | exact ⟨rfl, rfl, rfl, rfl, rfl, rfl⟩
      | simp_all
  · intro s f a ts hf ha hts hout
    cases hm : s.trigger_mode <;> cases htr : s.is_triggered_
    · simp [draw_data, is_triggered, hm, htr] at hout
    · simp [draw_data, is_triggered, hm, htr] at hout
    · simp [draw_data, is_triggered, hm, htr] at hout
    · rw [draw_data_eq s f a ts hm htr hf ha hts] at hout
      by_cases h1 : ts < pyhead a
      · rw [if_pos h1] at hout
        by_cases h2 : s.max_length ≤ a.length
        · rw [if_pos h2] at hout
          simp at hout
        · rw [if_neg h2] at hout
          simp at hout
      · rw [if_neg h1] at hout
        by_cases h3 : pylast a < ts
        · rw [if_pos h3] at hout
          simp at hout
        · exact le_of_not_lt h3

/-- A concrete Triggered state whose trigger timestamp is past the buffered
time reference, for the C5 witness. -/
def behindState : ScopeState :=
  { baseState with
      max_length := 4
      trigger_mode := true
      is_triggered_ := true
      data_time_field := some "t"
      trig_data := [("t", [1, 2])]
      trigger_timestamp := some 5 }

/-- A concrete Triggered state that emits a window, for the C5 witness. -/
def emitState : ScopeState :=
  { baseState with
      max_length := 2
      trigger_mode := true
      is_triggered_ := true
      data_time_field := some "t"
      trig_data := [("t", [1, 2, 3, 4])]
      trigger_timestamp := some (5 / 2) }

/-- C5 witness: the data-behind latch with its deficit warning at a concrete
state, rejection of a qualification attempt while behind, and a concrete
emission whose trigger timestamp is within the trailing edge. -/
theorem C5_data_behind_engine_witness :
    (draw_data behindState).1.outcome = DrawOutcome.dataBehind ∧
    (draw_data behindState).1.warnings
        = [TrigWarning.dataBehindBy ((5 : ℚ) - pylast [1, 2])] ∧
    (draw_data behindState).2.data_behind = true ∧
    (data_callback { baseState with data_behind := true } 0 none).1 = none ∧
    (data_callback { baseState with data_behind := true } 0 none).2.is_triggered_
        = ({ baseState with data_behind := true } : ScopeState).is_triggered_ ∧
    ((5 : ℚ) / 2) ≤ pylast [1, 2, 3, 4] := by
  have h1 := C5_data_behind_engine.1 behindState "t" [1, 2] 5 rfl rfl rfl
    (by simp [behindState, baseState, dictGet])
    (by norm_num [List.sorted_cons]) (by simp) rfl (by norm_num [pylast])
  have h2 := C5_data_behind_engine.2.1 { baseState with data_behind := true } 0 none rfl
  have h3 := C5_data_behind_engine.2.2 emitState "t" [1, 2, 3, 4] (5 / 2) rfl
    (by simp [emitState, baseState, dictGet]) rfl
    (by norm_num [draw_data, is_triggered, emitState, baseState, dictGet,
      pyhead, pylast, searchsorted])
  exact ⟨h1.1, h1.2.1, h1.2.2.1, h2.1, h2.2.1, h3⟩

/-- C10 (amended): when triggered with the configured data time field absent
from the trigger store, draw_data still emits a frame: for maxLength ≥ 1 it
publishes the last maxLength samples of every stored field with display start
index 0, fires the plot-ready signal, disables the trigger marker, and sends
the absent-field warning only on the first occurrence (the error flag is set
then, suppressing repeats, and no warning is sent when no field is
configured); whenever the field is present again the error flag is cleared. -/
theorem C10_absent_time_field :
    (∀ s : ScopeState,
      s.trigger_mode = true → s.is_triggered_ = true →
      (∀ f, s.data_time_field = some f → dictGet s.trig_data f = none) →
      1 ≤ s.max_length →
        (draw_data s).1.outcome = DrawOutcome.absentFrame ∧
        (draw_data s).1.outcome.signaled = true ∧
        (∀ k v, dictGet s.trig_data k = some v →
          (draw_data s).2.data k = some (v.drop (v.length - s.max_length))) ∧
        (draw_data s).2.display_start_index = 0 ∧
        (draw_data s).2.enable_trigger_marker = false ∧
        (∀ g, s.data_time_field = some g → s.data_time_field_on_error = false →
          (draw_data s).1.warnings = [TrigWarning.dataTimeFieldAbsent] ∧
          (draw_data s).2.data_time_field_on_error = true) ∧
        (s.data_time_field_on_error = true → (draw_data s).1.warnings = []) ∧
        (s.data_time_field = none → (draw_data s).1.warnings = [])) ∧
    (∀ (s : ScopeState) (f : String) (a : List ℚ),
      s.trigger_mode = true → s.is_triggered_ = true →
      s.data_time_field = some f → dictGet s.trig_data f = some a →
        (draw_data s).2.data_time_field_on_error = false) := by
  constructor
  · intro s hmode htrig habs hm
    have hit : is_triggered s = true := by simp [is_triggered, hmode, htrig]
    have hscrut : (match s.data_time_field with
                   | none => none
                   | some f => dictGet s.trig_data f) = none := by
      cases hdf : s.data_time_field with
      | none => rfl
      | some f => exact habs f hdf
    have hred : draw_data s =
        ({ outcome := DrawOutcome.absentFrame,
           warnings :=
             if (s.data_time_field.isSome && !s.data_time_field_on_error) = true then
               [TrigWarning.dataTimeFieldAbsent]
             else [] },
         { s with
           data := fun k =>
             match dictGet s.trig_data k with
             | some v => some (pytail s.max_length v)
             | none => s.data k,
           display_start_index := 0,
           enable_trigger_marker := false,
           data_time_field_on_error :=
             if (s.data_time_field.isSome && !s.data_time_field_on_error) = true then
               true
             else s.data_time_field_on_error }) := by
      unfold draw_data
      rw [hit, if_neg (by simp), hscrut]
    rw [hred]
    refine ⟨rfl, rfl, ?_, rfl, rfl, ?_, ?_, ?_⟩
    · intro k v hk
      dsimp only
      rw [hk]
      dsimp only
      rw [pytail_eq_drop _ _ hm]
    · intro g hg hflag
      rw [hg, hflag]
      exact ⟨rfl, rfl⟩
    · intro hflag
      rw [hflag]
      simp
    · intro hdf
      rw [hdf]
      simp
  · intro s f a hmode htrig hf ha
    have hit : is_triggered s = true := by simp [is_triggered, hmode, htrig]
    unfold draw_data
    rw [hit, if_neg (by simp), hf]
    try dsimp only
    rw [ha]
    try dsimp only
    cases hts : s.trigger_timestamp with
    | none => rfl
    | some ts =>
      try dsimp only
      split_ifs
      all_goals rfl

/-- A Triggered state whose configured data time field is missing from the
trigger store, for C10. -/
def absentState : ScopeState :=
  { baseState with
      max_length := 2
      trigger_mode := true
      is_triggered_ := true
      data_time_field := some "t"
      trig_data := [("x", [1, 2, 3])] }

/-- C10 witness: at a concrete state, the frame is emitted with the last two
samples, start index 0, marker disabled, one warning, flag set; and the flag
is cleared when the field is present. -/
theorem C10_absent_time_field_witness :
    (draw_data absentState).1.outcome = DrawOutcome.absentFrame ∧
    (draw_data absentState).1.outcome.signaled = true ∧
    (draw_data absentState).2.data "x" = some [2, 3] ∧
    (draw_data absentState).2.display_start_index = 0 ∧
    (draw_data absentState).2.enable_trigger_marker = false ∧
    (draw_data absentState).1.warnings = [TrigWarning.dataTimeFieldAbsent] ∧
    (draw_data absentState).2.data_time_field_on_error = true ∧
    (draw_data emitState).2.data_time_field_on_error = false := by
  have h := C10_absent_time_field.1 absentState rfl rfl
    (by
      intro f hf
      simp only [absentState, baseState] at hf
      injection hf with hf2
      subst hf2
      simp [absentState, baseState, dictGet])
    (by norm_num [absentState, baseState])
  have hx := h.2.2.1 "x" [1, 2, 3] (by simp [absentState, baseState, dictGet])
  have hw := h.2.2.2.2.2.1 "t" rfl rfl
  have hp := C10_absent_time_field.2 emitState "t" [1, 2, 3, 4] rfl rfl rfl
    (by simp [emitState, baseState, dictGet])
  refine ⟨h.1, h.2.1, ?_, h.2.2.2.1, h.2.2.2.2.1, hw.1, hw.2, hp⟩
  rw [hx]
  norm_num [absentState, baseState]

/-- C10 counterexample: with maxLength = 0 the absent-field frame publishes
the whole stored buffer (the Python slice [-0:] is the full array), not the
last maxLength = 0 samples, which would be the empty list. -/
theorem C10_absent_time_field_counterexample :
    (draw_data { absentState with max_length := 0 }).1.outcome
        = DrawOutcome.absentFrame ∧
    (draw_data { absentState with max_length := 0 }).2.data "x"
        = some [1, 2, 3] ∧
    (([1, 2, 3] : List ℚ).drop (([1, 2, 3] : List ℚ).length - 0) = []) ∧
    some ([1, 2, 3] : List ℚ) ≠ some ([] : List ℚ) := by
  refine ⟨?_, ?_, by norm_num, by simp⟩
  · norm_num [draw_data, is_triggered, absentState, baseState, dictGet,
      eq_false (by decide : ¬ ("x" = "t"))]
  · norm_num [draw_data, is_triggered, absentState, baseState, dictGet, pytail,
      eq_false (by decide : ¬ ("x" = "t"))]

/-- Both per-field stores (free-running and trigger-local) hold only buffers
of at most max_length samples. -/
def BuffersBounded (s : ScopeState) : Prop :=
  (∀ k : String, ∀ buf : List ℚ, s.data k = some buf → buf.length ≤ s.max_length) ∧
  (∀ kv : String × List ℚ, kv ∈ s.trig_data → kv.2.length ≤ s.max_length)

lemma draw_data_bounded (s : ScopeState) (hm : 1 ≤ s.max_length)
    (hb : BuffersBounded s) : BuffersBounded (draw_data s).2 := by
  have hpre := draw_data_preserves s
  constructor
  · intro k2 buf h
    rw [hpre.2.2.1]
    revert h
    unfold draw_data
    dsimp only
    repeat' split
    all_goals intro h
    all_goals try dsimp only at h
    all_goals first
      | exact hb.1 k2 buf h
      | (revert h
         split
         all_goals intro h
         · injection h with h3
           rw [← h3]
           exact pytail_length_le _ _ hm
         · exact hb.1 k2 buf h)
      | (revert h
         split
         all_goals try split
         all_goals intro h
         · injection h with h3
           rw [← h3]
           simp only [List.length_take, List.length_drop]
           omega
         · exact hb.1 k2 buf h
         · exact hb.1 k2 buf h)
  · rw [hpre.2.2.1]
    have ht : (draw_data s).2.trig_data = s.trig_data := hpre.2.2.2.1
    rw [ht]
    exact hb.2

lemma process_entry_bounded (s : ScopeState) (k : String) (v : BVal)
    (hm : 1 ≤ s.max_length) (hb : BuffersBounded s) :
    BuffersBounded (process_entry s k v).1 := by
  unfold process_entry add_to_trig_data trig_max_length
  dsimp only
  repeat' first
    | split
    | dsimp only
  all_goals refine ⟨fun k2 buf h => ?_, fun kv hkv => ?_⟩
  all_goals try dsimp only at h ⊢
  all_goals try dsimp only at hkv ⊢
  all_goals first
    | exact hb.1 k2 buf h
    | exact hb.2 kv hkv
    | (rcases dictSet_mem hkv with h2 | h2
       · rw [h2]
         exact pytail_length_le _ _ hm
       · exact hb.2 kv h2)
    | (by_cases hk2 : k2 = k
       · rw [if_pos hk2] at h
         injection h with h3
         rw [← h3]
         exact pytail_length_le _ _ hm
       · rw [if_neg hk2] at h
         exact hb.1 k2 buf h)

lemma process_entries_bounded (batch : List (String × BVal)) :
    ∀ acc : ScopeState × Bool, 1 ≤ acc.1.max_length → BuffersBounded acc.1 →
      BuffersBounded
        ((batch.foldl
          (fun acc kv =>
            let r := process_entry acc.1 kv.1 kv.2
            (r.1, acc.2 || r.2)) acc).1) ∧
      ((batch.foldl
          (fun acc kv =>
            let r := process_entry acc.1 kv.1 kv.2
            (r.1, acc.2 || r.2)) acc).1).max_length = acc.1.max_length := by
  induction batch with
  | nil => intro acc hm hb; exact ⟨hb, rfl⟩
  | cons kv rest ih =>
    intro acc hm hb
    dsimp only [List.foldl_cons]
    have hml := (process_entry_fields acc.1 kv.1 kv.2).2
    have hstep := process_entry_bounded acc.1 kv.1 kv.2 hm hb
    have := ih ((process_entry acc.1 kv.1 kv.2).1, acc.2 || (process_entry acc.1 kv.1 kv.2).2)
      (by rw [hml]; exact hm) hstep
    exact ⟨this.1, by rw [this.2]; exact hml⟩

lemma data_process_bounded (s : ScopeState) (batch : List (String × BVal))
    (hm : 1 ≤ s.max_length) (hb : BuffersBounded s) :
    BuffersBounded (data_process s batch) ∧
    (data_process s batch).max_length = s.max_length := by
  have hb1 : BuffersBounded { s with arraysReceived := s.arraysReceived + 1 } :=
    ⟨hb.1, hb.2⟩
  unfold data_process
  dsimp only
  split
  · exact ⟨hb1, rfl⟩
  · have he := process_entries_bounded batch
      ({ s with arraysReceived := s.arraysReceived + 1 }, false) hm hb1
    unfold process_entries
    split
    · have hd := draw_data_bounded _ (by rw [he.2]; exact hm) he.1
      have hdm := (draw_data_preserves
        ((batch.foldl
          (fun acc kv =>
            let r := process_entry acc.1 kv.1 kv.2
            (r.1, acc.2 || r.2))
          ({ s with arraysReceived := s.arraysReceived + 1 }, false)).1)).2.2.1
      exact ⟨hd, by rw [hdm]; exact he.2⟩
    · exact he

/-- C3 (amended): for every positive maxLength and every sequence of ingested
batches starting from bounded stores, every per-field buffer (free-running
store and trigger-local store alike) holds at most maxLength samples at all
times, and ingestion never changes maxLength. -/
theorem C3_buffer_bound (batches : List (List (String × BVal)))
    (s : ScopeState) (hm : 1 ≤ s.max_length) (hb : BuffersBounded s) :
    BuffersBounded (batches.foldl data_process s) ∧
    (batches.foldl data_process s).max_length = s.max_length := by
  induction batches generalizing s with
  | nil => exact ⟨hb, rfl⟩
  | cons b rest ih =>
    have h1 := data_process_bounded s b hm hb
    have h2 := ih (data_process s b) (by rw [h1.2]; exact hm) h1.1
    rw [List.foldl_cons]
    exact ⟨h2.1, by rw [h2.2, h1.2]⟩

/-- C3 witness: two concrete batches ingested into an empty two-sample buffer
leave every store bounded. -/
theorem C3_buffer_bound_witness :
    1 ≤ ({ baseState with max_length := 2 } : ScopeState).max_length ∧
    BuffersBounded
      ([[("a", BVal.array [1, 2, 3])], [("a", BVal.array [4])]].foldl
        data_process { baseState with max_length := 2 }) := by
  have hb : BuffersBounded { baseState with max_length := 2 } := by
    constructor
    · intro k buf h
      exact absurd h (by simp [baseState])
    · intro kv hkv
      exact absurd hkv (by simp [baseState])
  have hm : 1 ≤ ({ baseState with max_length := 2 } : ScopeState).max_length := by
    norm_num [baseState]
  exact ⟨hm,
    (C3_buffer_bound [[("a", BVal.array [1, 2, 3])], [("a", BVal.array [4])]]
      { baseState with max_length := 2 } hm hb).1⟩

/-- C3 counterexample: with maxLength = 0 a single one-sample batch leaves a
buffer of length 1 in the free-running store (the Python slice [-0:] keeps
everything), so the bound fails for the fixed maxLength 0. -/
theorem C3_buffer_bound_counterexample :
    (data_process { baseState with max_length := 0 }
        [("a", BVal.array [5])]).data "a" = some [5] ∧
    (data_process { baseState with max_length := 0 }
        [("a", BVal.array [5])]).max_length = 0 ∧
    ¬ (([5] : List ℚ).length ≤ 0) := by
  refine ⟨?_, ?_, by norm_num⟩
  · norm_num [data_process, process_entries, process_entry, add_to_trig_data,
      draw_data, is_triggered, trig_max_length, pytail, baseState, dictGet,
      eq_false (by decide : ¬ ("a" = "ArrayId"))]
  · norm_num [data_process, process_entries, process_entry, add_to_trig_data,
      draw_data, is_triggered, trig_max_length, pytail, baseState, dictGet,
      eq_false (by decide : ¬ ("a" = "ArrayId"))]

/-- C1 (amended): in trigger mode with the trigger timestamp inside the
buffered time reference (first element ≤ timestamp ≤ last element), draw_data
takes idx = searchsorted insertion index and required = maxLength / 2; with
fewer than required samples at or after idx it stays Triggered and emits
nothing; otherwise it emits the window [max(idx - required, 0),
idx + required) over every field whose trigger-local buffer length matches
the time-reference length and fires the plot-ready signal; provided
maxLength ≥ 2, the emitted window contains an index nearest the timestamp,
and its length is at most maxLength.  (Nat subtraction realises
max(idx - required, 0).) -/
theorem C1_trigger_window (s : ScopeState) (f : String) (a : List ℚ) (ts : ℚ)
    (hmode : s.trigger_mode = true) (htrig : s.is_triggered_ = true)
    (hf : s.data_time_field = some f) (ha : dictGet s.trig_data f = some a)
    (hne : a ≠ []) (hsort : a.Sorted (fun x y => x ≤ y))
    (hts : s.trigger_timestamp = some ts)
    (h1 : pyhead a ≤ ts) (h2 : ts ≤ pylast a)
    (hm : 2 ≤ s.max_length) :
    (a.length - searchsorted a ts < s.max_length / 2 →
      (draw_data s).1.outcome = DrawOutcome.waiting ∧
      (draw_data s).1.outcome.signaled = false ∧
      (draw_data s).2.is_triggered_ = true ∧
      (draw_data s).2.data = s.data) ∧
    (s.max_length / 2 ≤ a.length - searchsorted a ts →
      (draw_data s).1.outcome = DrawOutcome.emitted ∧
      (draw_data s).1.outcome.signaled = true ∧
      (draw_data s).2.display_start_index
          = searchsorted a ts - s.max_length / 2 ∧
      (draw_data s).2.trigger_index = searchsorted a ts ∧
      (∀ k v, dictGet s.trig_data k = some v → v.length = a.length →
        (draw_data s).2.data k =
          some ((v.drop (searchsorted a ts - s.max_length / 2)).take
            ((searchsorted a ts + s.max_length / 2)
              - (searchsorted a ts - s.max_length / 2)))) ∧
      ((searchsorted a ts + s.max_length / 2)
          - (searchsorted a ts - s.max_length / 2) ≤ s.max_length) ∧
      (∃ n : Nat, ∃ hn : n < a.length,
        searchsorted a ts - s.max_length / 2 ≤ n ∧
        n < searchsorted a ts + s.max_length / 2 ∧
        ∀ j : Nat, j < a.length → |a.getD n 0 - ts| ≤ |a.getD j 0 - ts|)) := by
  have hnlt1 : ¬ ts < pyhead a := not_lt.mpr h1
  have hnlt2 : ¬ pylast a < ts := not_lt.mpr h2
  rw [draw_data_eq s f a ts hmode htrig hf ha hts, if_neg hnlt1, if_neg hnlt2]
  constructor
  · intro hcnt
    rw [if_neg (by omega)]
    exact ⟨rfl, rfl, htrig, rfl⟩
  · intro hcnt
    rw [if_pos hcnt]
    refine ⟨rfl, rfl, rfl, rfl, ?_, by omega, ?_⟩
    · intro k v hk hvlen
      dsimp only
      rw [hk]
      dsimp only
      rw [if_pos (by omega)]
    · obtain ⟨n, hnl, hge, hle, hmin⟩ := nearest_exists a ts hsort hne h2
      exact ⟨n, hnl, by omega, by omega, hmin⟩

/-- A concrete Triggered state with the timestamp inside a six-sample time
reference and a matching companion waveform, for the C1 witness. -/
def windowState : ScopeState :=
  { baseState with
      max_length := 4
      trigger_mode := true
      is_triggered_ := true
      data_time_field := some "t"
      trig_data := [("t", [1, 2, 3, 4, 5, 6]), ("x", [10, 20, 30, 40, 50, 60])]
      trigger_timestamp := some (7 / 2) }

/-- C1 witness: at windowState the window [1, 5) is emitted over the
matching-length companion field. -/
theorem C1_trigger_window_witness :
    2 ≤ windowState.max_length ∧
    (draw_data windowState).1.outcome = DrawOutcome.emitted ∧
    (draw_data windowState).2.display_start_index = 1 ∧
    (draw_data windowState).2.data "x" = some [20, 30, 40, 50] := by
  have hidx : searchsorted [1, 2, 3, 4, 5, 6] ((7 : ℚ) / 2) = 3 := by
    norm_num [searchsorted]
  have h := C1_trigger_window windowState "t" [1, 2, 3, 4, 5, 6] (7 / 2)
    rfl rfl rfl (by simp [windowState, baseState, dictGet]) (by simp)
    (by norm_num [List.sorted_cons]) rfl (by norm_num [pyhead])
    (by norm_num [pylast]) (by norm_num [windowState, baseState])
  have hemit := h.2 (by rw [hidx]; norm_num [windowState, baseState])
  have hx := hemit.2.2.2.2.1 "x" [10, 20, 30, 40, 50, 60]
    (by simp [windowState, baseState, dictGet,
      eq_false (by decide : ¬ ("t" = "x"))])
    (by norm_num)
  refine ⟨by norm_num [windowState, baseState], hemit.1, ?_, ?_⟩
  · rw [hemit.2.2.1, hidx]
    norm_num [windowState, baseState]
  · rw [hx, hidx]
    norm_num [windowState, baseState]

/-- A Triggered state with maxLength = 1, for the C1 counterexample. -/
def emptyWindowState : ScopeState :=
  { baseState with
      max_length := 1
      trigger_mode := true
      is_triggered_ := true
      data_time_field := some "t"
      trig_data := [("t", [1, 2, 3])]
      trigger_timestamp := some 2 }

/-- C1 counterexample: with maxLength = 1 (so required = 0) and the timestamp
2 strictly inside the time reference [1, 2, 3], a frame is emitted whose
window [1, 1) is empty: it contains no index at all, in particular not the
nearest index, refuting the claim that the emitted window always contains the
index nearest the timestamp. -/
theorem C1_trigger_window_counterexample :
    (draw_data emptyWindowState).1.outcome = DrawOutcome.emitted ∧
    (draw_data emptyWindowState).1.outcome.signaled = true ∧
    (draw_data emptyWindowState).2.data "t" = some [] ∧
    pyhead [1, 2, 3] ≤ 2 ∧ (2 : ℚ) ≤ pylast [1, 2, 3] := by
  refine ⟨?_, ?_, ?_, by norm_num [pyhead], by norm_num [pylast]⟩
  all_goals
    norm_num [draw_data, is_triggered, emptyWindowState, baseState, dictGet,
      pyhead, pylast, searchsorted, DrawOutcome.signaled]
